import Mathlib

/-!
Verification of the configuration-intake boundary of drjacoby
(`src/src/System.cpp`, `System::load`), together with spec-modelled parts of
the MCMC engine that the repository's source tree does not contain.

`System::load` receives an R-side argument bundle (an `Rcpp::List` of named
entries), splits it into sub-lists, and copies each named parameter into a
member field after converting it with the `rcpp_to_*` helpers of `misc_v4.h`.
We embed R values as a tree of typed vectors and named lists, the `Rcpp`
name-indexing operator (which throws when the name is absent) as an `Except`
lookup, and each `rcpp_to_*` conversion (which throws on an incompatible
type) as an `Except` coercion.  C++ doubles are embedded as `ℚ`: `load`
only copies them, so no real arithmetic is involved.
-/

/-- An R value as seen through `Rcpp` in `System::load`: a numeric vector,
an integer vector, a logical vector, or a named list of further values. -/
inductive RValue : Type where
  | realVec (v : List ℚ)
  | intVec (v : List Int)
  | boolVec (v : List Bool)
  | rList (entries : List (String × RValue))

/-- A named R list, the type of the `args` bundle and its sub-lists. -/
abbrev RList : Type := List (String × RValue)

/-- Errors raised while reading the bundle: `Rcpp` name indexing throws an
index-out-of-bounds error naming the missing field, and the `Rcpp::as` based
conversions throw a not-compatible error. -/
inductive LoadError : Type where
  | missing (field : String)
  | notCompatible
deriving DecidableEq

/-- Embeds `Rcpp::List::operator[](const std::string&)`: returns the entry
with the given name, or throws naming the field when no entry has it. -/
def listGet (l : RList) (name : String) : Except LoadError RValue :=
  match l.lookup name with
  | some v => .ok v
  | none => .error (.missing name)

/-- Embeds construction of an `Rcpp::List` from a retrieved value (as in
`Rcpp::List args_params = args["args_params"]`): throws unless the value is
itself a list. -/
def asList (v : RValue) : Except LoadError RList :=
  match v with
  | .rList entries => .ok entries
  | _ => .error .notCompatible

/-- Embeds `rcpp_to_vector_double` from `misc_v4.h`. -/
def rcpp_to_vector_double (v : RValue) : Except LoadError (List ℚ) :=
  match v with
  | .realVec x => .ok x
  | _ => .error .notCompatible

/-- Embeds `rcpp_to_vector_int` from `misc_v4.h`. -/
def rcpp_to_vector_int (v : RValue) : Except LoadError (List Int) :=
  match v with
  | .intVec x => .ok x
  | _ => .error .notCompatible

/-- Embeds `rcpp_to_vector_bool` from `misc_v4.h`. -/
def rcpp_to_vector_bool (v : RValue) : Except LoadError (List Bool) :=
  match v with
  | .boolVec x => .ok x
  | _ => .error .notCompatible

/-- Embeds `rcpp_to_int` from `misc_v4.h` (a length-one integer vector). -/
def rcpp_to_int (v : RValue) : Except LoadError Int :=
  match v with
  | .intVec [n] => .ok n
  | _ => .error .notCompatible

/-- Embeds `rcpp_to_double` from `misc_v4.h` (a length-one numeric vector). -/
def rcpp_to_double (v : RValue) : Except LoadError ℚ :=
  match v with
  | .realVec [q] => .ok q
  | _ => .error .notCompatible

/-- Embeds `rcpp_to_bool` from `misc_v4.h` (a length-one logical vector). -/
def rcpp_to_bool (v : RValue) : Except LoadError Bool :=
  match v with
  | .boolVec [b] => .ok b
  | _ => .error .notCompatible

/-- `args_params["name"]` followed by `Rcpp::List` construction. -/
def getList (l : RList) (name : String) : Except LoadError RList := do
  asList (← listGet l name)

/-- `rcpp_to_vector_double(l["name"])`. -/
def getVecDouble (l : RList) (name : String) : Except LoadError (List ℚ) := do
  rcpp_to_vector_double (← listGet l name)

/-- `rcpp_to_vector_int(l["name"])`. -/
def getVecInt (l : RList) (name : String) : Except LoadError (List Int) := do
  rcpp_to_vector_int (← listGet l name)

/-- `rcpp_to_vector_bool(l["name"])`. -/
def getVecBool (l : RList) (name : String) : Except LoadError (List Bool) := do
  rcpp_to_vector_bool (← listGet l name)

/-- `rcpp_to_int(l["name"])`. -/
def getInt (l : RList) (name : String) : Except LoadError Int := do
  rcpp_to_int (← listGet l name)

/-- `rcpp_to_double(l["name"])`. -/
def getDouble (l : RList) (name : String) : Except LoadError ℚ := do
  rcpp_to_double (← listGet l name)

/-- `rcpp_to_bool(l["name"])`. -/
def getBool (l : RList) (name : String) : Except LoadError Bool := do
  rcpp_to_bool (← listGet l name)

/-- The `System` object.  `System.h` is not part of the given sources; the
members assigned by `System::load` are exactly the fields below, and `extra`
stands for any further state a `System` object might carry, so that framing
of `load` (which fields it writes) is expressible. -/
structure System (α : Type) where
  x : List ℚ
  theta_init : List ℚ
  theta_min : List ℚ
  theta_max : List ℚ
  trans_type : List Int
  d : Nat
  burnin : List Int
  samples : Int
  rungs : Int
  burnin_phases : Int
  bw_update : List Bool
  cov_update : List Bool
  coupling_on : List Bool
  GTI_pow : ℚ
  chain : Int
  pb_markdown : Bool
  silent : Bool
  extra : α
deriving DecidableEq

set_option linter.unusedVariables false

/-- Embeds `System::load` (`src/src/System.cpp`, lines 7-40), statement for
statement and in source order: split the argument lists, then read `x`, the
model parameters, `d = theta_init.size()`, the MCMC parameters and the misc
parameters.  The C++ method mutates `this`; here the updated object is
returned, with every member not assigned by `load` (`extra`) carried over.
The sub-lists `args_functions` and `args_progress_burnin` are split off but
never read again, exactly as in the C++ source. -/
def System.load (s : System α) (args : RList) : Except LoadError (System α) := do
  let args_params ← getList args "args_params"
  let args_functions ← getList args "args_functions"
  let args_progress ← getList args "args_progress"
  let args_progress_burnin ← getList args_progress "pb_burnin"
  let x ← getVecDouble args_params "x"
  let theta_init ← getVecDouble args_params "theta_init"
  let theta_min ← getVecDouble args_params "theta_min"
  let theta_max ← getVecDouble args_params "theta_max"
  let trans_type ← getVecInt args_params "trans_type"
  let d := theta_init.length
  let burnin ← getVecInt args_params "burnin"
  let samples ← getInt args_params "samples"
  let rungs ← getInt args_params "rungs"
  let burnin_phases ← getInt args_params "burnin_phases"
  let bw_update ← getVecBool args_params "bw_update"
  let cov_update ← getVecBool args_params "cov_update"
  let coupling_on ← getVecBool args_params "coupling_on"
  let GTI_pow ← getDouble args_params "GTI_pow"
  let chain ← getInt args_params "chain"
  let pb_markdown ← getBool args_params "pb_markdown"
  let silent ← getBool args_params "silent"
  pure { x := x, theta_init := theta_init, theta_min := theta_min,
         theta_max := theta_max, trans_type := trans_type, d := d,
         burnin := burnin, samples := samples, rungs := rungs,
         burnin_phases := burnin_phases, bw_update := bw_update,
         cov_update := cov_update, coupling_on := coupling_on,
         GTI_pow := GTI_pow, chain := chain, pb_markdown := pb_markdown,
         silent := silent, extra := s.extra }

set_option linter.unusedVariables true

deriving instance DecidableEq for Except

/-! ### A concrete well-formed argument bundle (used for tests/witnesses). -/

/-- An `args_params` sub-list holding every parameter `System::load` reads,
each with its expected R type. -/
def paramsOK : RList :=
  [("x", .realVec [1, 2]),
   ("theta_init", .realVec [0]),
   ("theta_min", .realVec [-1]),
   ("theta_max", .realVec [1]),
   ("trans_type", .intVec [0]),
   ("burnin", .intVec [10]),
   ("samples", .intVec [100]),
   ("rungs", .intVec [1]),
   ("burnin_phases", .intVec [1]),
   ("bw_update", .boolVec [true]),
   ("cov_update", .boolVec [false]),
   ("coupling_on", .boolVec [true]),
   ("GTI_pow", .realVec [3]),
   ("chain", .intVec [1]),
   ("pb_markdown", .boolVec [false]),
   ("silent", .boolVec [true])]

/-- A complete argument bundle with the three sub-lists `System::load`
splits off. -/
def argsOK : RList :=
  [("args_params", .rList paramsOK),
   ("args_functions", .rList [("loglike", .rList []), ("logprior", .rList [])]),
   ("args_progress", .rList [("pb_burnin", .rList [])])]

/-- A `System` object before `load`, with arbitrary member values. -/
def sys0 : System Unit :=
  { x := [], theta_init := [], theta_min := [], theta_max := [],
    trans_type := [], d := 0, burnin := [], samples := 0, rungs := 0,
    burnin_phases := 0, bw_update := [], cov_update := [], coupling_on := [],
    GTI_pow := 0, chain := 0, pb_markdown := false, silent := false,
    extra := () }

/-- The configuration record `System::load` produces from `argsOK`. -/
def sysOK : System Unit :=
  { x := [1, 2], theta_init := [0], theta_min := [-1], theta_max := [1],
    trans_type := [0], d := 1, burnin := [10], samples := 100, rungs := 1,
    burnin_phases := 1, bw_update := [true], cov_update := [false],
    coupling_on := [true], GTI_pow := 3, chain := 1, pb_markdown := false,
    silent := true, extra := () }

/-! ### Bundles that the spec's validation section says must be rejected. -/

/-- An `args_params` sub-list with `theta_init` of length 2 but
`theta_min`, `theta_max` of length 1, and `burnin` of length 1 with
`burnin_phases = 2`: every length relation of the spec's validation list is
violated, yet every entry is present and well typed. -/
def paramsMismatch : RList :=
  [("x", .realVec [1]),
   ("theta_init", .realVec [0, 0]),
   ("theta_min", .realVec [0]),
   ("theta_max", .realVec [1]),
   ("trans_type", .intVec [0, 0, 0]),
   ("burnin", .intVec [10]),
   ("samples", .intVec [100]),
   ("rungs", .intVec [2]),
   ("burnin_phases", .intVec [2]),
   ("bw_update", .boolVec [true]),
   ("cov_update", .boolVec [true]),
   ("coupling_on", .boolVec [true, true]),
   ("GTI_pow", .realVec [1]),
   ("chain", .intVec [1]),
   ("pb_markdown", .boolVec [false]),
   ("silent", .boolVec [false])]

/-- The full bundle around `paramsMismatch`. -/
def argsMismatch : RList :=
  [("args_params", .rList paramsMismatch),
   ("args_functions", .rList []),
   ("args_progress", .rList [("pb_burnin", .rList [])])]

/-- The record `System::load` produces from `argsMismatch`. -/
def sysMismatch : System Unit :=
  { x := [1], theta_init := [0, 0], theta_min := [0], theta_max := [1],
    trans_type := [0, 0, 0], d := 2, burnin := [10], samples := 100,
    rungs := 2, burnin_phases := 2, bw_update := [true], cov_update := [true],
    coupling_on := [true, true], GTI_pow := 1, chain := 1,
    pb_markdown := false, silent := false, extra := () }

/-- An `args_params` sub-list with `rungs = 0`, `samples = -1`,
`GTI_pow = 0` and `theta_init = 5` outside its bounds `[0, 1]`: every value
constraint of the spec's validation list is violated, yet every entry is
present and well typed. -/
def paramsBadValues : RList :=
  [("x", .realVec [1]),
   ("theta_init", .realVec [5]),
   ("theta_min", .realVec [0]),
   ("theta_max", .realVec [1]),
   ("trans_type", .intVec [0]),
   ("burnin", .intVec [10]),
   ("samples", .intVec [-1]),
   ("rungs", .intVec [0]),
   ("burnin_phases", .intVec [1]),
   ("bw_update", .boolVec [true]),
   ("cov_update", .boolVec [true]),
   ("coupling_on", .boolVec [true]),
   ("GTI_pow", .realVec [0]),
   ("chain", .intVec [1]),
   ("pb_markdown", .boolVec [false]),
   ("silent", .boolVec [false])]

/-- The full bundle around `paramsBadValues`. -/
def argsBadValues : RList :=
  [("args_params", .rList paramsBadValues),
   ("args_functions", .rList []),
   ("args_progress", .rList [("pb_burnin", .rList [])])]

/-- The record `System::load` produces from `argsBadValues`. -/
def sysBadValues : System Unit :=
  { x := [1], theta_init := [5], theta_min := [0], theta_max := [1],
    trans_type := [0], d := 1, burnin := [10], samples := -1, rungs := 0,
    burnin_phases := 1, bw_update := [true], cov_update := [true],
    coupling_on := [true], GTI_pow := 0, chain := 1, pb_markdown := false,
    silent := false, extra := () }

/-- The parameter names `System::load` reads from `args_params`, in source
order. -/
def paramFieldNames : List String :=
  ["x", "theta_init", "theta_min", "theta_max", "trans_type", "burnin",
   "samples", "rungs", "burnin_phases", "bw_update", "cov_update",
   "coupling_on", "GTI_pow", "chain", "pb_markdown", "silent"]

/-- A second bundle with the same `args_params` entry as `argsOK` but
different (still present) `args_functions` and `args_progress` content. -/
def argsOK2 : RList :=
  [("args_params", .rList paramsOK),
   ("args_functions", .rList [("loglike", .intVec [7])]),
   ("args_progress", .rList [("pb_burnin", .rList [("bar", .intVec [1])]),
                             ("pb_samples", .rList [])])]

/-!
### Spec-modelled MCMC engine

The repository's source tree contains only the loader; the engine it
configures (Chain, RungLadder, CouplingEngine, BurnInScheduler, Sampler of
the design) is not under `src/`.  The definitions below are therefore
modelled from the spec, not translated from code, and are used only for the
claims about that missing engine (configuration immutability after load,
and determinism of a replicate as a function of configuration and seed).
-/

/-- Modelled from the spec: the single deterministic generator, seeded
explicitly per replicate, threaded through every random decision (spec
section 5); here a 64-bit linear congruential step. -/
def rngNext (r : Nat) : Nat :=
  (6364136223846793005 * r + 1442695040888963407) % 18446744073709551616

/-- Modelled from the spec: a symmetric random-walk proposal shift derived
from one generator draw, ranging over `[-1, 1]`. -/
def propShift (r : Nat) : ℚ := ((r % 2001 : Nat) : ℚ) / 1000 - 1

/-- Modelled from the spec: the log of a uniform variate derived from one
generator draw, a nonpositive rational standing in for `log(U(0,1))` in the
Metropolis comparison `log u ≤ Δ` (equivalent to accepting with probability
`min(1, exp Δ)`). -/
def logUnif (r : Nat) : ℚ := -(((r % 100001 : Nat) : ℚ) / 10000)

/-- Modelled from the spec: one chain of the ladder — current coordinates
and cached log-likelihood (spec section 3, Chain). -/
structure ChainState where
  theta : List ℚ
  loglike : ℚ
deriving DecidableEq

/-- Modelled from the spec: the mutable state of one replicate run — the
immutable configuration, the ladder of chains, the generator state, and the
growing sample sequence (spec sections 3 and 5). -/
structure RunState where
  conf : System Unit
  chains : List ChainState
  rng : Nat
  out : List (List ℚ × ℚ)
deriving DecidableEq

/-- Modelled from the spec (section 4.3): one within-chain Metropolis step:
draw a candidate by a symmetric random walk, accept when the log ratio
clears the log-uniform draw, otherwise keep the state; the generator state
advances either way. -/
def chainStep (ll : List ℚ → ℚ) (r : Nat) (cs : ChainState) :
    ChainState × Nat :=
  let r1 := rngNext r
  let candidate := cs.theta.map (fun t => t + propShift r1)
  let r2 := rngNext r1
  let llCand := ll candidate
  if logUnif r2 ≤ llCand - cs.loglike then
    ({ theta := candidate, loglike := llCand }, r2)
  else (cs, r2)

/-- Modelled from the spec (section 4.7): every rung's chain updates once,
in fixed order, the generator threaded through. -/
def stepAllChains (ll : List ℚ → ℚ) (r : Nat) :
    List ChainState → List ChainState × Nat
  | [] => ([], r)
  | c :: rest =>
    let p := chainStep ll r c
    let q := stepAllChains ll p.2 rest
    (p.1 :: q.1, q.2)

/-- Modelled from the spec (section 4.5): one swap attempt between rungs
`k` and `k+1`, gated by both `coupling_on` flags; on accept the two chains
exchange their states. -/
def trySwap (co : List Bool) (k : Nat) (st : List ChainState × Nat) :
    List ChainState × Nat :=
  let r1 := rngNext st.2
  match st.1[k]?, st.1[k + 1]? with
  | some a, some b =>
    if co.getD k false && co.getD (k + 1) false &&
        decide (logUnif r1 ≤ b.loglike - a.loglike) then
      ((st.1.set k b).set (k + 1) a, r1)
    else (st.1, r1)
  | _, _ => (st.1, r1)

/-- Modelled from the spec (section 4.5): one pass over all adjacent
pairs. -/
def swapPass (co : List Bool) (st : List ChainState × Nat) :
    List ChainState × Nat :=
  (List.range (st.1.length - 1)).foldl (fun acc k => trySwap co k acc) st

/-- Modelled from the spec (section 4.7): one sampling-phase iteration —
within-chain updates, a coupling pass, and the cold chain's state appended
to the output. -/
def sampleIterate (ll : List ℚ → ℚ) (st : RunState) : RunState :=
  let s1 := stepAllChains ll st.rng st.chains
  let s2 := swapPass st.conf.coupling_on s1
  { conf := st.conf, chains := s2.1, rng := s2.2,
    out := st.out ++ (match s2.1.getLast? with
      | some c => [(c.theta, c.loglike)]
      | none => []) }

/-- Modelled from the spec (sections 4.6, 4.7): one burn-in iteration —
the same loop without sample emission. -/
def burnIterate (ll : List ℚ → ℚ) (st : RunState) : RunState :=
  let s1 := stepAllChains ll st.rng st.chains
  let s2 := swapPass st.conf.coupling_on s1
  { conf := st.conf, chains := s2.1, rng := s2.2, out := st.out }

/-- Modelled from the spec: the run state at the start of a replicate —
every rung initialized at `theta_init`, the generator at the explicit
seed, no output yet. -/
def initRun (c : System Unit) (ll : List ℚ → ℚ) (seed : Nat) : RunState :=
  { conf := c,
    chains := (List.range c.rungs.toNat).map
      (fun _ => { theta := c.theta_init, loglike := ll c.theta_init }),
    rng := seed, out := [] }

/-- Modelled from the spec: a complete replicate run — all burn-in
iterations, then `samples` sampling iterations — returning the emitted
Sample sequence. -/
def runReplicate (ll : List ℚ → ℚ) (c : System Unit) (seed : Nat) :
    List (List ℚ × ℚ) :=
  ((sampleIterate ll)^[c.samples.toNat]
    ((burnIterate ll)^[(c.burnin.foldl (fun a b => a + b) 0).toNat]
      (initRun c ll seed))).out

/-- Modelled from the spec (section 4.4, RungLadder): the temperature power
of rung `k` in a ladder of `rungs` chains, `β_k = (k / (rungs − 1))^GTI_pow`;
a ladder of one rung collapses to the single untempered chain, `β = 1`. -/
noncomputable def ladderBeta (rungs : Nat) (GTI_pow : ℝ) (k : Nat) : ℝ :=
  if rungs = 1 then 1 else ((k : ℝ) / ((rungs : ℝ) - 1)) ^ GTI_pow

/-- Modelled from the spec (section 4.5, CouplingEngine): the acceptance
probability of a swap between adjacent rungs `(k, k+1)`,
`min(1, exp((β_{k+1} − β_k)·(loglike_k − loglike_{k+1})))`. -/
noncomputable def swapAcceptProb (betaK betaK1 llK llK1 : ℝ) : ℝ :=
  min 1 (Real.exp ((betaK1 - betaK) * (llK - llK1)))

/-! ### Generic facts about `Except` binds, used to take `load` apart. -/

theorem except_bind_eq_ok {ε α β : Type} {x : Except ε α} {f : α → Except ε β}
    {b : β} :
    x >>= f = Except.ok b ↔ ∃ a, x = Except.ok a ∧ f a = Except.ok b := by
  cases x <;> simp [Bind.bind, Except.bind]

theorem except_pure_eq_ok {ε β : Type} {b c : β} :
    (pure b : Except ε β) = Except.ok c ↔ b = c := by
  constructor
  · intro h
    exact Except.ok.inj h
  · intro h
    rw [h]
    rfl

/-- Taking a successful `System::load` apart: every sub-list split and every
field read must itself have succeeded, each configuration field of the
result is the correspondingly named entry of `args_params` converted by its
`rcpp_to_*` helper, `d` is the length of `theta_init`, and the remaining
state `extra` is untouched. -/
theorem load_ok_parts {α : Type} (s : System α) (args : RList) (c : System α)
    (h : System.load s args = .ok c) :
    ∃ p, getList args "args_params" = .ok p ∧
      (∃ fns, getList args "args_functions" = .ok fns) ∧
      (∃ pr, getList args "args_progress" = .ok pr ∧
        ∃ pb, getList pr "pb_burnin" = .ok pb) ∧
      getVecDouble p "x" = .ok c.x ∧
      getVecDouble p "theta_init" = .ok c.theta_init ∧
      getVecDouble p "theta_min" = .ok c.theta_min ∧
      getVecDouble p "theta_max" = .ok c.theta_max ∧
      getVecInt p "trans_type" = .ok c.trans_type ∧
      c.d = c.theta_init.length ∧
      getVecInt p "burnin" = .ok c.burnin ∧
      getInt p "samples" = .ok c.samples ∧
      getInt p "rungs" = .ok c.rungs ∧
      getInt p "burnin_phases" = .ok c.burnin_phases ∧
      getVecBool p "bw_update" = .ok c.bw_update ∧
      getVecBool p "cov_update" = .ok c.cov_update ∧
      getVecBool p "coupling_on" = .ok c.coupling_on ∧
      getDouble p "GTI_pow" = .ok c.GTI_pow ∧
      getInt p "chain" = .ok c.chain ∧
      getBool p "pb_markdown" = .ok c.pb_markdown ∧
      getBool p "silent" = .ok c.silent ∧
      c.extra = s.extra := by
  simp only [System.load, except_bind_eq_ok, except_pure_eq_ok] at h
  obtain ⟨p, hp, fns, hfns, pr, hpr, pb, hpb, xv, hx, ti, hti, tmn, htmn,
    tmx, htmx, tt, htt, bi, hbi, sa, hsa, ru, hru, bp, hbp, bw, hbw,
    cv, hcv, co, hco, gp, hgp, ch, hch, pm, hpm, si, hsi, hc⟩ := h
  subst hc
  exact ⟨p, hp, ⟨fns, hfns⟩, ⟨pr, hpr, pb, hpb⟩, hx, hti, htmn, htmx, htt,
    rfl, hbi, hsa, hru, hbp, hbw, hcv, hco, hgp, hch, hpm, hsi, rfl⟩

/-- Rebuilding `System::load` from its parts: when each sub-list split and
each field read succeeds, `load` succeeds and produces exactly the record of
those values, with no condition whatsoever relating lengths or values. -/
theorem load_of_parts {α : Type} (s : System α) (args : RList)
    (p fns pr pb : RList) (xv ti tmn tmx : List ℚ) (tt bi : List Int)
    (sa ru bp : Int) (bw cv co : List Bool) (gp : ℚ) (ch : Int) (pm si : Bool)
    (hp : getList args "args_params" = .ok p)
    (hfns : getList args "args_functions" = .ok fns)
    (hpr : getList args "args_progress" = .ok pr)
    (hpb : getList pr "pb_burnin" = .ok pb)
    (hx : getVecDouble p "x" = .ok xv)
    (hti : getVecDouble p "theta_init" = .ok ti)
    (htmn : getVecDouble p "theta_min" = .ok tmn)
    (htmx : getVecDouble p "theta_max" = .ok tmx)
    (htt : getVecInt p "trans_type" = .ok tt)
    (hbi : getVecInt p "burnin" = .ok bi)
    (hsa : getInt p "samples" = .ok sa)
    (hru : getInt p "rungs" = .ok ru)
    (hbp : getInt p "burnin_phases" = .ok bp)
    (hbw : getVecBool p "bw_update" = .ok bw)
    (hcv : getVecBool p "cov_update" = .ok cv)
    (hco : getVecBool p "coupling_on" = .ok co)
    (hgp : getDouble p "GTI_pow" = .ok gp)
    (hch : getInt p "chain" = .ok ch)
    (hpm : getBool p "pb_markdown" = .ok pm)
    (hsi : getBool p "silent" = .ok si) :
    System.load s args = .ok
      { x := xv, theta_init := ti, theta_min := tmn, theta_max := tmx,
        trans_type := tt, d := ti.length, burnin := bi, samples := sa,
        rungs := ru, burnin_phases := bp, bw_update := bw, cov_update := cv,
        coupling_on := co, GTI_pow := gp, chain := ch, pb_markdown := pm,
        silent := si, extra := s.extra } := by
  simp only [System.load, except_bind_eq_ok, except_pure_eq_ok]
  exact ⟨p, hp, fns, hfns, pr, hpr, pb, hpb, xv, hx, ti, hti, tmn, htmn,
    tmx, htmx, tt, htt, bi, hbi, sa, hsa, ru, hru, bp, hbp, bw, hbw,
    cv, hcv, co, hco, gp, hgp, ch, hch, pm, hpm, si, hsi, rfl⟩

/-! ### A successful read implies the name is present in the list. -/

theorem listGet_ok_isSome {l : RList} {n : String} {v : RValue}
    (h : listGet l n = .ok v) : (l.lookup n).isSome = true := by
  unfold listGet at h
  cases hl : l.lookup n with
  | some w => rfl
  | none => rw [hl] at h; exact absurd h (by simp)

theorem getVecDouble_isSome {l : RList} {n : String} {v : List ℚ}
    (h : getVecDouble l n = .ok v) : (l.lookup n).isSome = true := by
  simp only [getVecDouble, except_bind_eq_ok] at h
  obtain ⟨w, hw, _⟩ := h
  exact listGet_ok_isSome hw

theorem getVecInt_isSome {l : RList} {n : String} {v : List Int}
    (h : getVecInt l n = .ok v) : (l.lookup n).isSome = true := by
  simp only [getVecInt, except_bind_eq_ok] at h
  obtain ⟨w, hw, _⟩ := h
  exact listGet_ok_isSome hw

theorem getVecBool_isSome {l : RList} {n : String} {v : List Bool}
    (h : getVecBool l n = .ok v) : (l.lookup n).isSome = true := by
  simp only [getVecBool, except_bind_eq_ok] at h
  obtain ⟨w, hw, _⟩ := h
  exact listGet_ok_isSome hw

theorem getInt_isSome {l : RList} {n : String} {v : Int}
    (h : getInt l n = .ok v) : (l.lookup n).isSome = true := by
  simp only [getInt, except_bind_eq_ok] at h
  obtain ⟨w, hw, _⟩ := h
  exact listGet_ok_isSome hw

theorem getDouble_isSome {l : RList} {n : String} {v : ℚ}
    (h : getDouble l n = .ok v) : (l.lookup n).isSome = true := by
  simp only [getDouble, except_bind_eq_ok] at h
  obtain ⟨w, hw, _⟩ := h
  exact listGet_ok_isSome hw

theorem getBool_isSome {l : RList} {n : String} {v : Bool}
    (h : getBool l n = .ok v) : (l.lookup n).isSome = true := by
  simp only [getBool, except_bind_eq_ok] at h
  obtain ⟨w, hw, _⟩ := h
  exact listGet_ok_isSome hw

theorem getList_isSome {l : RList} {n : String} {v : RList}
    (h : getList l n = .ok v) : (l.lookup n).isSome = true := by
  simp only [getList, except_bind_eq_ok] at h
  obtain ⟨w, hw, _⟩ := h
  exact listGet_ok_isSome hw

/-- `getList` reads the bundle only through the entry with the given name. -/
theorem getList_congr {l1 l2 : RList} {n : String}
    (h : l1.lookup n = l2.lookup n) : getList l1 n = getList l2 n := by
  simp only [getList, listGet, h]

/-- C1, counterexample: on a bundle whose `theta` sequences have unequal
lengths (2, 1, 1, 3) and whose `burnin` has length 1 while
`burnin_phases = 2`, `System::load` does not fail: it returns a
configuration record. -/
theorem c1_load_accepts_length_mismatch_counterexample :
    sysMismatch.theta_init.length = 2 ∧ sysMismatch.theta_min.length = 1 ∧
    sysMismatch.theta_max.length = 1 ∧ sysMismatch.trans_type.length = 3 ∧
    sysMismatch.burnin.length = 1 ∧ sysMismatch.burnin_phases = 2 ∧
    System.load sys0 argsMismatch = .ok sysMismatch :=
  ⟨rfl, rfl, rfl, rfl, rfl, rfl, by decide⟩

/-- C1 (amended): `System::load` performs no length validation.  Whenever
every entry of the bundle is present with its expected type, `load`
succeeds and returns the configuration record, no matter how the lengths of
`theta_init`, `theta_min`, `theta_max`, `trans_type` compare and no matter
how the length of `burnin` compares with `burnin_phases`. -/
theorem c1_load_performs_no_length_validation {α : Type} (s : System α)
    (args : RList) (p fns pr pb : RList) (xv ti tmn tmx : List ℚ)
    (tt bi : List Int) (sa ru bp : Int) (bw cv co : List Bool) (gp : ℚ)
    (ch : Int) (pm si : Bool)
    (hp : getList args "args_params" = .ok p)
    (hfns : getList args "args_functions" = .ok fns)
    (hpr : getList args "args_progress" = .ok pr)
    (hpb : getList pr "pb_burnin" = .ok pb)
    (hx : getVecDouble p "x" = .ok xv)
    (hti : getVecDouble p "theta_init" = .ok ti)
    (htmn : getVecDouble p "theta_min" = .ok tmn)
    (htmx : getVecDouble p "theta_max" = .ok tmx)
    (htt : getVecInt p "trans_type" = .ok tt)
    (hbi : getVecInt p "burnin" = .ok bi)
    (hsa : getInt p "samples" = .ok sa)
    (hru : getInt p "rungs" = .ok ru)
    (hbp : getInt p "burnin_phases" = .ok bp)
    (hbw : getVecBool p "bw_update" = .ok bw)
    (hcv : getVecBool p "cov_update" = .ok cv)
    (hco : getVecBool p "coupling_on" = .ok co)
    (hgp : getDouble p "GTI_pow" = .ok gp)
    (hch : getInt p "chain" = .ok ch)
    (hpm : getBool p "pb_markdown" = .ok pm)
    (hsi : getBool p "silent" = .ok si) :
    ∃ c : System α, System.load s args = .ok c ∧ c.theta_init = ti ∧
      c.theta_min = tmn ∧ c.theta_max = tmx ∧ c.trans_type = tt ∧
      c.burnin = bi ∧ c.burnin_phases = bp :=
  ⟨_, load_of_parts s args p fns pr pb xv ti tmn tmx tt bi sa ru bp bw cv co
      gp ch pm si hp hfns hpr hpb hx hti htmn htmx htt hbi hsa hru hbp hbw
      hcv hco hgp hch hpm hsi, rfl, rfl, rfl, rfl, rfl, rfl⟩

/-- Witness for C1 (amended), at the concrete mismatched bundle. -/
theorem c1_load_performs_no_length_validation_witness :
    ∃ c : System Unit, System.load sys0 argsMismatch = .ok c ∧
      c.theta_init = [0, 0] ∧ c.theta_min = [0] ∧ c.theta_max = [1] ∧
      c.trans_type = [0, 0, 0] ∧ c.burnin = [10] ∧ c.burnin_phases = 2 :=
  c1_load_performs_no_length_validation sys0 argsMismatch paramsMismatch
    [] [("pb_burnin", RValue.rList [])] [] [1] [0, 0] [0] [1] [0, 0, 0] [10]
    100 2 2 [true] [true] [true, true] 1 1 false false
    rfl rfl rfl rfl rfl rfl rfl rfl rfl rfl rfl rfl rfl rfl rfl rfl rfl rfl
    rfl rfl

/-- C2, counterexample: on a bundle with `rungs = 0`, `samples = -1`,
`GTI_pow = 0` and `theta_init = 5` outside `[theta_min, theta_max] = [0, 1]`,
`System::load` does not fail: it returns a configuration record. -/
theorem c2_load_accepts_bad_values_counterexample :
    sysBadValues.rungs < 1 ∧ sysBadValues.samples < 0 ∧
    sysBadValues.GTI_pow ≤ 0 ∧
    sysBadValues.theta_max.headD 0 < sysBadValues.theta_init.headD 0 ∧
    System.load sys0 argsBadValues = .ok sysBadValues :=
  ⟨by decide, by decide, by decide, by decide, by decide⟩

/-- C2 (amended): `System::load` performs no value validation.  Whenever
every entry of the bundle is present with its expected type, `load`
succeeds and returns the configuration record, whatever the values of
`rungs`, `samples`, `GTI_pow` and however `theta_init` compares with
`theta_min` and `theta_max`. -/
theorem c2_load_performs_no_value_validation {α : Type} (s : System α)
    (args : RList) (p fns pr pb : RList) (xv ti tmn tmx : List ℚ)
    (tt bi : List Int) (sa ru bp : Int) (bw cv co : List Bool) (gp : ℚ)
    (ch : Int) (pm si : Bool)
    (hp : getList args "args_params" = .ok p)
    (hfns : getList args "args_functions" = .ok fns)
    (hpr : getList args "args_progress" = .ok pr)
    (hpb : getList pr "pb_burnin" = .ok pb)
    (hx : getVecDouble p "x" = .ok xv)
    (hti : getVecDouble p "theta_init" = .ok ti)
    (htmn : getVecDouble p "theta_min" = .ok tmn)
    (htmx : getVecDouble p "theta_max" = .ok tmx)
    (htt : getVecInt p "trans_type" = .ok tt)
    (hbi : getVecInt p "burnin" = .ok bi)
    (hsa : getInt p "samples" = .ok sa)
    (hru : getInt p "rungs" = .ok ru)
    (hbp : getInt p "burnin_phases" = .ok bp)
    (hbw : getVecBool p "bw_update" = .ok bw)
    (hcv : getVecBool p "cov_update" = .ok cv)
    (hco : getVecBool p "coupling_on" = .ok co)
    (hgp : getDouble p "GTI_pow" = .ok gp)
    (hch : getInt p "chain" = .ok ch)
    (hpm : getBool p "pb_markdown" = .ok pm)
    (hsi : getBool p "silent" = .ok si) :
    ∃ c : System α, System.load s args = .ok c ∧ c.rungs = ru ∧
      c.samples = sa ∧ c.GTI_pow = gp ∧ c.theta_init = ti ∧
      c.theta_min = tmn ∧ c.theta_max = tmx :=
  ⟨_, load_of_parts s args p fns pr pb xv ti tmn tmx tt bi sa ru bp bw cv co
      gp ch pm si hp hfns hpr hpb hx hti htmn htmx htt hbi hsa hru hbp hbw
      hcv hco hgp hch hpm hsi, rfl, rfl, rfl, rfl, rfl, rfl⟩

/-- Witness for C2 (amended), at the concrete bad-values bundle. -/
theorem c2_load_performs_no_value_validation_witness :
    ∃ c : System Unit, System.load sys0 argsBadValues = .ok c ∧
      c.rungs = 0 ∧ c.samples = -1 ∧ c.GTI_pow = 0 ∧ c.theta_init = [5] ∧
      c.theta_min = [0] ∧ c.theta_max = [1] :=
  c2_load_performs_no_value_validation sys0 argsBadValues paramsBadValues
    [] [("pb_burnin", RValue.rList [])] [] [1] [5] [0] [1] [0] [10]
    (-1) 0 1 [true] [true] [true] 0 1 false false
    rfl rfl rfl rfl rfl rfl rfl rfl rfl rfl rfl rfl rfl rfl rfl rfl rfl rfl
    rfl rfl

/-- C3: whenever `System::load` succeeds, every configuration field of the
result is the correspondingly named entry of the bundle's `args_params`
sub-list converted by its `rcpp_to_*` helper, and `d` is the length of
`theta_init`. -/
theorem c3_load_copies_named_fields {α : Type} (s : System α) (args : RList)
    (c : System α) (h : System.load s args = .ok c) :
    ∃ p, getList args "args_params" = .ok p ∧
      getVecDouble p "x" = .ok c.x ∧
      getVecDouble p "theta_init" = .ok c.theta_init ∧
      getVecDouble p "theta_min" = .ok c.theta_min ∧
      getVecDouble p "theta_max" = .ok c.theta_max ∧
      getVecInt p "trans_type" = .ok c.trans_type ∧
      getVecInt p "burnin" = .ok c.burnin ∧
      getInt p "samples" = .ok c.samples ∧
      getInt p "rungs" = .ok c.rungs ∧
      getInt p "burnin_phases" = .ok c.burnin_phases ∧
      getVecBool p "bw_update" = .ok c.bw_update ∧
      getVecBool p "cov_update" = .ok c.cov_update ∧
      getVecBool p "coupling_on" = .ok c.coupling_on ∧
      getDouble p "GTI_pow" = .ok c.GTI_pow ∧
      getInt p "chain" = .ok c.chain ∧
      getBool p "pb_markdown" = .ok c.pb_markdown ∧
      getBool p "silent" = .ok c.silent ∧
      c.d = c.theta_init.length := by
  obtain ⟨p, hp, _, _, hx, hti, htmn, htmx, htt, hd, hbi, hsa, hru, hbp,
    hbw, hcv, hco, hgp, hch, hpm, hsi, _⟩ := load_ok_parts s args c h
  exact ⟨p, hp, hx, hti, htmn, htmx, htt, hbi, hsa, hru, hbp, hbw, hcv, hco,
    hgp, hch, hpm, hsi, hd⟩

/-- Witness for C3, at the well-formed bundle `argsOK`. -/
theorem c3_load_copies_named_fields_witness :
    ∃ p, getList argsOK "args_params" = .ok p ∧
      getVecDouble p "x" = .ok sysOK.x ∧
      getVecDouble p "theta_init" = .ok sysOK.theta_init ∧
      getVecDouble p "theta_min" = .ok sysOK.theta_min ∧
      getVecDouble p "theta_max" = .ok sysOK.theta_max ∧
      getVecInt p "trans_type" = .ok sysOK.trans_type ∧
      getVecInt p "burnin" = .ok sysOK.burnin ∧
      getInt p "samples" = .ok sysOK.samples ∧
      getInt p "rungs" = .ok sysOK.rungs ∧
      getInt p "burnin_phases" = .ok sysOK.burnin_phases ∧
      getVecBool p "bw_update" = .ok sysOK.bw_update ∧
      getVecBool p "cov_update" = .ok sysOK.cov_update ∧
      getVecBool p "coupling_on" = .ok sysOK.coupling_on ∧
      getDouble p "GTI_pow" = .ok sysOK.GTI_pow ∧
      getInt p "chain" = .ok sysOK.chain ∧
      getBool p "pb_markdown" = .ok sysOK.pb_markdown ∧
      getBool p "silent" = .ok sysOK.silent ∧
      sysOK.d = sysOK.theta_init.length :=
  c3_load_copies_named_fields sys0 argsOK sysOK (by decide)

/-- C4: `System::load` succeeds only when every recognized parameter name is
present in `args_params`; contrapositively, a bundle from which a recognized
field is missing makes `load` fail (the `Rcpp` name lookup throws), rather
than default the field. -/
theorem c4_missing_field_fails {α : Type} (s : System α) (args : RList)
    (c : System α) (h : System.load s args = .ok c) :
    ∃ p, getList args "args_params" = .ok p ∧
      ∀ name ∈ paramFieldNames, (p.lookup name).isSome = true := by
  obtain ⟨p, hp, _, _, hx, hti, htmn, htmx, htt, _, hbi, hsa, hru, hbp,
    hbw, hcv, hco, hgp, hch, hpm, hsi, _⟩ := load_ok_parts s args c h
  refine ⟨p, hp, ?_⟩
  intro name hname
  simp only [paramFieldNames, List.mem_cons, List.not_mem_nil,
    or_false] at hname
  rcases hname with rfl | rfl | rfl | rfl | rfl | rfl | rfl | rfl | rfl |
    rfl | rfl | rfl | rfl | rfl | rfl | rfl
  exacts [getVecDouble_isSome hx, getVecDouble_isSome hti,
    getVecDouble_isSome htmn, getVecDouble_isSome htmx, getVecInt_isSome htt,
    getVecInt_isSome hbi, getInt_isSome hsa, getInt_isSome hru,
    getInt_isSome hbp, getVecBool_isSome hbw, getVecBool_isSome hcv,
    getVecBool_isSome hco, getDouble_isSome hgp, getInt_isSome hch,
    getBool_isSome hpm, getBool_isSome hsi]

/-- Witness for C4, at the well-formed bundle `argsOK`. -/
theorem c4_missing_field_fails_witness :
    ∃ p, getList argsOK "args_params" = .ok p ∧
      ∀ name ∈ paramFieldNames, (p.lookup name).isSome = true :=
  c4_missing_field_fails sys0 argsOK sysOK (by decide)

/-- Two `System` objects agreeing on every field are equal. -/
theorem System.eq_of_fields {α : Type} {c1 c2 : System α}
    (h1 : c1.x = c2.x) (h2 : c1.theta_init = c2.theta_init)
    (h3 : c1.theta_min = c2.theta_min) (h4 : c1.theta_max = c2.theta_max)
    (h5 : c1.trans_type = c2.trans_type) (h6 : c1.d = c2.d)
    (h7 : c1.burnin = c2.burnin) (h8 : c1.samples = c2.samples)
    (h9 : c1.rungs = c2.rungs) (h10 : c1.burnin_phases = c2.burnin_phases)
    (h11 : c1.bw_update = c2.bw_update) (h12 : c1.cov_update = c2.cov_update)
    (h13 : c1.coupling_on = c2.coupling_on) (h14 : c1.GTI_pow = c2.GTI_pow)
    (h15 : c1.chain = c2.chain) (h16 : c1.pb_markdown = c2.pb_markdown)
    (h17 : c1.silent = c2.silent) (h18 : c1.extra = c2.extra) : c1 = c2 := by
  cases c1
  cases c2
  simp_all

/-- C9: `System::load` demands the presence of the `args_functions` entry
and of an `args_progress` entry containing `pb_burnin` — a successful load
implies they are there, so their absence makes load fail — even though
nothing read from them is stored: two bundles with the same `args_params`
entry load to identical records. -/
theorem c9_unused_sections_required {α : Type} :
    (∀ (s : System α) (args : RList) (c : System α),
      System.load s args = .ok c →
        (args.lookup "args_functions").isSome = true ∧
        ∃ pr, getList args "args_progress" = .ok pr ∧
          (pr.lookup "pb_burnin").isSome = true) ∧
    (∀ (s : System α) (args1 args2 : RList) (c1 c2 : System α),
      System.load s args1 = .ok c1 → System.load s args2 = .ok c2 →
      args1.lookup "args_params" = args2.lookup "args_params" → c1 = c2) := by
  constructor
  · intro s args c h
    obtain ⟨p, hp, ⟨fns, hfns⟩, ⟨pr, hpr, pb, hpb⟩, _⟩ :=
      load_ok_parts s args c h
    exact ⟨getList_isSome hfns, pr, hpr, getList_isSome hpb⟩
  · intro s args1 args2 c1 c2 h1 h2 hlp
    obtain ⟨p1, hp1, _, _, hx1, hti1, htmn1, htmx1, htt1, hd1, hbi1, hsa1,
      hru1, hbp1, hbw1, hcv1, hco1, hgp1, hch1, hpm1, hsi1, he1⟩ :=
      load_ok_parts s args1 c1 h1
    obtain ⟨p2, hp2, _, _, hx2, hti2, htmn2, htmx2, htt2, hd2, hbi2, hsa2,
      hru2, hbp2, hbw2, hcv2, hco2, hgp2, hch2, hpm2, hsi2, he2⟩ :=
      load_ok_parts s args2 c2 h2
    rw [getList_congr hlp, hp2] at hp1
    obtain rfl : p2 = p1 := Except.ok.inj hp1
    have eti : c1.theta_init = c2.theta_init :=
      Except.ok.inj (hti1.symm.trans hti2)
    refine System.eq_of_fields (Except.ok.inj (hx1.symm.trans hx2)) eti
      (Except.ok.inj (htmn1.symm.trans htmn2))
      (Except.ok.inj (htmx1.symm.trans htmx2))
      (Except.ok.inj (htt1.symm.trans htt2)) (by rw [hd1, hd2, eti])
      (Except.ok.inj (hbi1.symm.trans hbi2))
      (Except.ok.inj (hsa1.symm.trans hsa2))
      (Except.ok.inj (hru1.symm.trans hru2))
      (Except.ok.inj (hbp1.symm.trans hbp2))
      (Except.ok.inj (hbw1.symm.trans hbw2))
      (Except.ok.inj (hcv1.symm.trans hcv2))
      (Except.ok.inj (hco1.symm.trans hco2))
      (Except.ok.inj (hgp1.symm.trans hgp2))
      (Except.ok.inj (hch1.symm.trans hch2))
      (Except.ok.inj (hpm1.symm.trans hpm2))
      (Except.ok.inj (hsi1.symm.trans hsi2)) (he1.trans he2.symm)

/-- Witness for C9: `argsOK` carries the demanded entries, and `argsOK2`,
which agrees with `argsOK` only on `args_params`, loads to the same
record. -/
theorem c9_unused_sections_required_witness :
    ((argsOK.lookup "args_functions").isSome = true ∧
      ∃ pr, getList argsOK "args_progress" = .ok pr ∧
        (pr.lookup "pb_burnin").isSome = true) ∧
    sysOK = sysOK :=
  ⟨(c9_unused_sections_required (α := Unit)).1 sys0 argsOK sysOK (by decide),
   (c9_unused_sections_required (α := Unit)).2 sys0 argsOK argsOK2 sysOK
     sysOK (by decide) (by decide) rfl⟩

/-- C10: framing of `System::load`.  The embedding is a pure function of the
bundle, so the bundle itself is untouched; within the `System` object, every
member other than the seventeen configuration fields assigned in
`System.cpp` (modelled by `extra`) keeps its prior value, and `load` reads
none of the object's prior field values: objects with the same `extra` load
identically. -/
theorem c10_load_frame {α : Type} (s1 s2 : System α) (args : RList)
    (c : System α) :
    (System.load s1 args = .ok c → c.extra = s1.extra) ∧
    (s1.extra = s2.extra → System.load s1 args = System.load s2 args) := by
  constructor
  · intro h
    obtain ⟨_, _, _, _, _, _, _, _, _, _, _, _, _, _, _, _, _, _, _, _, _,
      he⟩ := load_ok_parts s1 args c h
    exact he
  · intro hext
    simp only [System.load, hext]

/-- Witness for C10, at the well-formed bundle `argsOK`. -/
theorem c10_load_frame_witness :
    sysOK.extra = sys0.extra ∧
    System.load sys0 argsOK = System.load sysOK argsOK :=
  ⟨(c10_load_frame sys0 sys0 argsOK sysOK).1 (by decide),
   (c10_load_frame sys0 sysOK argsOK sysOK).2 rfl⟩

/-- Iterating any step that keeps the configuration component keeps it. -/
theorem iterate_conf_eq (f : RunState → RunState)
    (hf : ∀ st, (f st).conf = st.conf) (n : Nat) :
    ∀ st : RunState, (f^[n] st).conf = st.conf := by
  induction n with
  | zero => intro st; rfl
  | succ k ih =>
    intro st
    rw [Function.iterate_succ_apply, ih, hf]

/-- C5: once `System::load` has produced the configuration, no iteration of
the engine ever changes it — after any number of burn-in and sampling
iterations the configuration component of the run state is still exactly
the loaded record. -/
theorem c5_config_immutable_after_load (s : System Unit) (args : RList)
    (c : System Unit) (h : System.load s args = .ok c) (ll : List ℚ → ℚ)
    (seed m n : Nat) :
    ((sampleIterate ll)^[n]
      ((burnIterate ll)^[m] (initRun c ll seed))).conf = c := by
  rw [iterate_conf_eq (sampleIterate ll) (fun st => rfl) n,
    iterate_conf_eq (burnIterate ll) (fun st => rfl) m]
  rfl

/-- Witness for C5, at the loaded record of `argsOK`, one burn-in and one
sampling iteration. -/
theorem c5_config_immutable_after_load_witness :
    ((sampleIterate (fun _ => 0))^[1]
      ((burnIterate (fun _ => 0))^[1]
        (initRun sysOK (fun _ => 0) 0))).conf = sysOK :=
  c5_config_immutable_after_load sys0 argsOK sysOK (by decide)
    (fun _ => 0) 0 1 1

/-- C8: a replicate run is a function of the configuration and the seed
alone — two runs with identical configuration and identical seed produce
identical Sample sequences. -/
theorem c8_identical_seed_identical_samples (ll : List ℚ → ℚ)
    (c1 c2 : System Unit) (s1 s2 : Nat) (hc : c1 = c2) (hs : s1 = s2) :
    runReplicate ll c1 s1 = runReplicate ll c2 s2 := by
  rw [hc, hs]

/-- Witness for C8, two runs at the loaded record of `argsOK`, seed 42. -/
theorem c8_identical_seed_identical_samples_witness :
    runReplicate (fun _ => 0) sysOK 42 = runReplicate (fun _ => 0) sysOK 42 :=
  c8_identical_seed_identical_samples (fun _ => 0) sysOK sysOK 42 42 rfl rfl

/-- C6: for `rungs > 1` and `GTI_pow > 0` the ladder powers satisfy
`β_0 = 0`, `β_{rungs−1} = 1` and are strictly increasing in the rung index;
for `rungs = 1` the single chain has `β = 1`. -/
theorem c6_ladder_beta_monotone (rungs : Nat) (p : ℝ) (hr : 1 < rungs)
    (hp : 0 < p) :
    ladderBeta rungs p 0 = 0 ∧ ladderBeta rungs p (rungs - 1) = 1 ∧
    (∀ k j : Nat, k < j → j ≤ rungs - 1 →
      ladderBeta rungs p k < ladderBeta rungs p j) ∧
    (∀ q : ℝ, ladderBeta 1 q 0 = 1) := by
  have hne : rungs ≠ 1 := by omega
  have hcast : (1 : ℝ) < (rungs : ℝ) := by exact_mod_cast hr
  have hden : (0 : ℝ) < (rungs : ℝ) - 1 := by linarith
  refine ⟨?_, ?_, ?_, ?_⟩
  · simp [ladderBeta, hne, Real.zero_rpow hp.ne']
  · simp only [ladderBeta, if_neg hne]
    rw [Nat.cast_sub (le_of_lt hr), Nat.cast_one, div_self (ne_of_gt hden),
      Real.one_rpow]
  · intro k j hkj hj
    simp only [ladderBeta, if_neg hne]
    have hdiv : (k : ℝ) / ((rungs : ℝ) - 1) < (j : ℝ) / ((rungs : ℝ) - 1) := by
      gcongr
    exact Real.rpow_lt_rpow (by positivity) hdiv hp
  · intro q
    simp [ladderBeta]

/-- Witness for C6, at the spec's Scenario B ladder `rungs = 5`,
`GTI_pow = 2`. -/
theorem c6_ladder_beta_monotone_witness :
    ladderBeta 5 2 0 = 0 ∧ ladderBeta 5 2 4 = 1 ∧
    (∀ k j : Nat, k < j → j ≤ 4 →
      ladderBeta 5 2 k < ladderBeta 5 2 j) ∧
    (∀ q : ℝ, ladderBeta 1 q 0 = 1) :=
  c6_ladder_beta_monotone 5 2 (by norm_num) (by norm_num)

/-- C7: the swap-acceptance probability equals 1 whenever the two rungs
share a temperature power, and whenever the two chains' cached
log-likelihoods agree. -/
theorem c7_swap_accept_prob_one (bk bk1 lk lk1 : ℝ) :
    (bk = bk1 → swapAcceptProb bk bk1 lk lk1 = 1) ∧
    (lk = lk1 → swapAcceptProb bk bk1 lk lk1 = 1) := by
  constructor
  · rintro rfl
    simp [swapAcceptProb]
  · rintro rfl
    simp [swapAcceptProb]

/-- Witness for C7, at equal powers `β = 1` and at equal log-likelihoods
`5`. -/
theorem c7_swap_accept_prob_one_witness :
    swapAcceptProb 1 1 3 7 = 1 ∧ swapAcceptProb 0 1 5 5 = 1 :=
  ⟨(c7_swap_accept_prob_one 1 1 3 7).1 rfl,
   (c7_swap_accept_prob_one 0 1 5 5).2 rfl⟩
